import Mathlib

/-!
Shallow embedding of the boids simulation (repository AbbiePBC/boids).

Sources: src/boids.rs, src/flock.rs, src/validate.rs.  The repository holds
several successive revisions of the same program; src/flock.rs carries the
final coordinator (`Flock::new`, `Flock::validate`, `Flock::update_boid`,
`Flock::limit_speed`, `Flock::cohere_boid`, `Flock::randomly_generate_boids`),
src/boids.rs carries the agent model (`Boid`, `is_crowded_by_boid`,
`is_within_sight_of_local_boid`, `align_boid`, `uncrowd_boid`, the earlier
method form of `maybe_reflect_off_boundaries`) and src/validate.rs the
validation helpers (identical to the copies inside flock.rs).

`f32` arithmetic is modelled by real numbers; `i32` counters by ℤ, `usize`
indices by ℕ.  Rust `Vec<Boid>` becomes `List Boid`, fallible construction
returns `Except`.
-/

noncomputable section
open Classical

/-- Agent state, from `struct Boid` in src/boids.rs: position and velocity
as floating-point (here: real) coordinates. -/
structure Boid where
  x_pos : ℝ
  y_pos : ℝ
  x_vel : ℝ
  y_vel : ℝ

instance : Inhabited Boid := ⟨⟨0, 0, 0, 0⟩⟩

/-- `Boid::new` from src/boids.rs. -/
def Boid.new (x_pos y_pos x_vel y_vel : ℝ) : Boid :=
  ⟨x_pos, y_pos, x_vel, y_vel⟩

/-- The `AddAssign` impl for `Boid` in src/boids.rs: component-wise addition
of all four fields. -/
instance : Add Boid :=
  ⟨fun a b => ⟨a.x_pos + b.x_pos, a.y_pos + b.y_pos, a.x_vel + b.x_vel, a.y_vel + b.y_vel⟩⟩

/-- `Boid::is_crowded_by_boid` from src/boids.rs: both axis-wise absolute
position deltas strictly below the crowding threshold. -/
def Boid.is_crowded_by_boid (b other : Boid) (max_dist_before_boid_is_no_longer_crowded : ℝ) : Prop :=
  |b.x_pos - other.x_pos| < max_dist_before_boid_is_no_longer_crowded ∧
    |b.y_pos - other.y_pos| < max_dist_before_boid_is_no_longer_crowded

/-- `Boid::is_within_sight_of_local_boid` from src/boids.rs: the same shape of
test against the local radius. -/
def Boid.is_within_sight_of_local_boid (b other : Boid) (max_dist_of_local_boid : ℝ) : Prop :=
  |b.x_pos - other.x_pos| < max_dist_of_local_boid ∧
    |b.y_pos - other.y_pos| < max_dist_of_local_boid

/-- Euclidean norm of the velocity, as computed in `Flock::limit_speed`
(src/flock.rs): `(x_vel.powi(2) + y_vel.powi(2)).sqrt()`. -/
def Boid.speed (b : Boid) : ℝ :=
  Real.sqrt (b.x_vel ^ 2 + b.y_vel ^ 2)

/-- `enum CreationError` from src/validate.rs (duplicated in src/flock.rs). -/
inductive CreationError where
  | FactorShouldBeMoreThanZero (factor_name : String)
  | FactorShouldBeLessThanOne (factor_name : String)
  | LocalEnvironmentIsSmallerThanCrowdingEnvironment
deriving DecidableEq

/-- `check_float_between_zero_and_one` from src/validate.rs / src/flock.rs. -/
def check_float_between_zero_and_one (value : ℝ) (name : String) : Option CreationError :=
  if value < 0 then some (CreationError.FactorShouldBeMoreThanZero name)
  else if value > 1 then some (CreationError.FactorShouldBeLessThanOne name)
  else none

/-- `validate_factors` from src/validate.rs / src/flock.rs: the three factor
checks run unconditionally and the hits are collected in order. -/
def validate_factors (repulsion_factor adhesion_factor cohesion_factor : ℝ) : List CreationError :=
  [check_float_between_zero_and_one repulsion_factor "repulsion",
   check_float_between_zero_and_one adhesion_factor "adhesion",
   check_float_between_zero_and_one cohesion_factor "cohesion"].filterMap id

/-- `validate_distances` from src/validate.rs / src/flock.rs. -/
def validate_distances (max_dist_before_boid_is_crowded max_dist_of_local_boid : ℝ) :
    Option CreationError :=
  if max_dist_before_boid_is_crowded ≥ max_dist_of_local_boid then
    some CreationError.LocalEnvironmentIsSmallerThanCrowdingEnvironment
  else none

/-- `struct InvalidFlockConfig` from src/validate.rs / src/flock.rs. -/
structure InvalidFlockConfig where
  errors : List CreationError

/-- `struct Flock` from src/flock.rs. -/
structure Flock where
  flock_size : ℕ
  boids : List Boid
  max_dist_before_boid_is_no_longer_crowded : ℝ
  max_dist_of_local_boid : ℝ
  repulsion_factor : ℝ
  adhesion_factor : ℝ
  cohesion_factor : ℝ
  time_per_frame : ℝ
  boid_max_speed : ℝ
  frame_width : ℝ
  frame_height : ℝ

/-- `Flock::validate` from src/flock.rs: factor errors first, then the
distance error is pushed, and the call fails iff the collected list is
non-empty. -/
def Flock.validate (f : Flock) : Except InvalidFlockConfig Unit :=
  let errors := validate_factors f.repulsion_factor f.adhesion_factor f.cohesion_factor ++
    (validate_distances f.max_dist_before_boid_is_no_longer_crowded f.max_dist_of_local_boid).toList
  if errors.length > 0 then Except.error ⟨errors⟩ else Except.ok ()

/-- `Flock::generate_boids` from src/flock.rs: `flock_size` boids, all
`Boid::new(0.0, 0.0, 0.0, 0.0)`. -/
def Flock.generate_boids (f : Flock) : List Boid :=
  List.replicate f.flock_size (Boid.new 0 0 0 0)

/-- `Flock::init` from src/flock.rs. -/
def Flock.init (f : Flock) : Flock :=
  { f with boids := f.generate_boids }

/-- The `Flock { .. }` literal built at the top of `Flock::new`
(src/flock.rs): empty boid list, `time_per_frame = 1.0`,
`boid_max_speed = 8.0`, frame `800.0 × 500.0`. -/
def Flock.input (flock_size : ℕ)
    (max_dist_before_boid_is_crowded max_dist_of_local_boid
      repulsion_factor adhesion_factor cohesion_factor : ℝ) : Flock :=
  { flock_size := flock_size
    boids := []
    max_dist_before_boid_is_no_longer_crowded := max_dist_before_boid_is_crowded
    max_dist_of_local_boid := max_dist_of_local_boid
    repulsion_factor := repulsion_factor
    adhesion_factor := adhesion_factor
    cohesion_factor := cohesion_factor
    time_per_frame := 1
    boid_max_speed := 8
    frame_width := 800
    frame_height := 500 }

/-- `Flock::new` from src/flock.rs: build the record, validate, and only on
success run `init` (which allocates the boids). -/
def Flock.new (flock_size : ℕ)
    (max_dist_before_boid_is_crowded max_dist_of_local_boid
      repulsion_factor adhesion_factor cohesion_factor : ℝ) :
    Except InvalidFlockConfig Flock :=
  let flock := Flock.input flock_size max_dist_before_boid_is_crowded max_dist_of_local_boid
    repulsion_factor adhesion_factor cohesion_factor
  match flock.validate with
  | Except.error e => Except.error e
  | Except.ok _ => Except.ok flock.init

/-- `Boid::uncrowd_boid` as implemented in src/boids.rs (lines 105-120) and
called from `Flock::update_boid` in src/flock.rs with the repulsion factor
and time-per-frame passed explicitly: the velocity is pushed away from the
crowding flock's mean position and the position is advanced by the old
velocity. -/
def Boid.uncrowd_boid (b : Boid) (num_crowding_boids : ℤ)
    (total_x_dist_of_crowding_boids total_y_dist_of_crowding_boids
      repulsion_factor time_per_frame : ℝ) : Boid :=
  let dist_to_ave_x_pos_of_crowding_boids : ℝ :=
    b.x_pos - total_x_dist_of_crowding_boids / (num_crowding_boids : ℝ)
  let dist_to_ave_y_pos_of_crowding_boids : ℝ :=
    b.y_pos - total_y_dist_of_crowding_boids / (num_crowding_boids : ℝ)
  { x_pos := b.x_pos + b.x_vel * time_per_frame
    y_pos := b.y_pos + b.y_vel * time_per_frame
    x_vel := b.x_vel + dist_to_ave_x_pos_of_crowding_boids * repulsion_factor
    y_vel := b.y_vel + dist_to_ave_y_pos_of_crowding_boids * repulsion_factor }

/-- `Boid::align_boid` as implemented in src/boids.rs (lines 121-133) and
called from `Flock::update_boid` in src/flock.rs with the adhesion factor and
time-per-frame passed explicitly: the velocity moves an `adhesion_factor`
fraction of the way towards the local flock's mean velocity and the position
is advanced by the old velocity. -/
def Boid.align_boid (b : Boid) (num_local_boids : ℤ)
    (total_x_vel_of_local_boids total_y_vel_of_local_boids
      adhesion_factor time_per_frame : ℝ) : Boid :=
  let average_x_vel : ℝ := total_x_vel_of_local_boids / (num_local_boids : ℝ)
  let average_y_vel : ℝ := total_y_vel_of_local_boids / (num_local_boids : ℝ)
  { x_pos := b.x_pos + b.x_vel * time_per_frame
    y_pos := b.y_pos + b.y_vel * time_per_frame
    x_vel := b.x_vel + (average_x_vel - b.x_vel) * adhesion_factor
    y_vel := b.y_vel + (average_y_vel - b.y_vel) * adhesion_factor }

/-- `Flock::cohere_boid` from src/flock.rs (lines 191-219), expressed on the
boid being updated: the velocity is pulled towards the local flock's mean
position (scaled by the cohesion factor and divided by the time per frame)
and the position is advanced by the old velocity. -/
def Boid.cohere_boid (b : Boid) (num_local_boids : ℤ)
    (total_x_dist_of_local_boids total_y_dist_of_local_boids
      cohesion_factor time_per_frame : ℝ) : Boid :=
  let dist_to_ave_x_pos_of_local_boids : ℝ :=
    total_x_dist_of_local_boids / (num_local_boids : ℝ) - b.x_pos
  let dist_to_ave_y_pos_of_local_boids : ℝ :=
    total_y_dist_of_local_boids / (num_local_boids : ℝ) - b.y_pos
  { x_pos := b.x_pos + b.x_vel * time_per_frame
    y_pos := b.y_pos + b.y_vel * time_per_frame
    x_vel := b.x_vel + dist_to_ave_x_pos_of_local_boids * cohesion_factor / time_per_frame
    y_vel := b.y_vel + dist_to_ave_y_pos_of_local_boids * cohesion_factor / time_per_frame }

/-- The velocity-capping half of `Flock::limit_speed` (src/flock.rs lines
304-313): if the speed exceeds the maximum, both velocity components are
rescaled by `max_speed / speed` (the speed is computed once, before either
component is overwritten). -/
def Boid.limit_speed_vel (max_speed : ℝ) (b : Boid) : Boid :=
  if b.speed > max_speed then
    { b with x_vel := b.x_vel / b.speed * max_speed, y_vel := b.y_vel / b.speed * max_speed }
  else b

/-- The full body of `Flock::limit_speed` (src/flock.rs lines 304-322) on the
boid being updated: cap the velocity, then unconditionally advance the
position by the (possibly capped) velocity times the time per frame. -/
def Boid.limit_speed_boid (max_speed time_per_frame : ℝ) (b : Boid) : Boid :=
  let c := Boid.limit_speed_vel max_speed b
  { x_pos := c.x_pos + c.x_vel * time_per_frame
    y_pos := c.y_pos + c.y_vel * time_per_frame
    x_vel := c.x_vel
    y_vel := c.y_vel }

/-- `Flock::limit_speed` from src/flock.rs. -/
def Flock.limit_speed (f : Flock) (boid_to_update : ℕ) : Flock :=
  let b := Boid.limit_speed_boid f.boid_max_speed f.time_per_frame
    (f.boids.getD boid_to_update default)
  { f with boids := f.boids.set boid_to_update b }

/-- Modelled from the spec: the free function
`maybe_reflect_off_boundaries(boid, frame_width, frame_height, time_per_frame)`
that src/flock.rs imports from the boids module is absent from src (src/boids.rs
holds only an earlier, method-based revision).  Spec section 4.1, boundary
reflection: predict the next-tick position from the current velocity and, for
each axis independently, invert that axis's velocity component when the
predicted coordinate is at or beyond the frame's upper bound or at or below
zero (the optional visual-radius inset is not used). -/
def maybe_reflect_off_boundaries (b : Boid) (frame_width frame_height time_per_frame : ℝ) : Boid :=
  let next_x_pos := b.x_pos + b.x_vel * time_per_frame
  let next_y_pos := b.y_pos + b.y_vel * time_per_frame
  { b with
    x_vel := if next_x_pos ≥ frame_width ∨ next_x_pos ≤ 0 then -b.x_vel else b.x_vel
    y_vel := if next_y_pos ≥ frame_height ∨ next_y_pos ≤ 0 then -b.y_vel else b.y_vel }

/-- The earlier `Flock::maybe_reflect_off_boundaries` method from src/boids.rs
(lines 188-195), with the flock's integer frame dimensions passed explicitly:
each axis's velocity component is negated when the absolute position reaches
`(frame_dimension - 1) / 2` (integer division); nothing else changes. -/
def maybe_reflect_off_boundaries_method (b : Boid) (frame_width frame_height : ℤ) : Boid :=
  let b1 := if |b.x_pos| ≥ (((frame_width - 1) / 2 : ℤ) : ℝ) then { b with x_vel := -b.x_vel } else b
  if |b1.y_pos| ≥ (((frame_height - 1) / 2 : ℤ) : ℝ) then { b1 with y_vel := -b1.y_vel } else b1

/-- The mutable accumulators of the classification loop at the top of
`Flock::update_boid` (src/flock.rs lines 221-226). -/
structure ScanAcc where
  num_crowding_boids : ℤ
  total_x_dist_of_crowding_boids : ℝ
  total_y_dist_of_crowding_boids : ℝ
  num_local_boids : ℤ
  total_of_local_boids : Boid

/-- The classification loop of `Flock::update_boid` (src/flock.rs lines
228-248): walk the boid list with a running index, skip the boid being
updated, test crowded-by first and accumulate into the crowding aggregates,
otherwise test local-flock membership and accumulate into the local
aggregates. -/
def update_scan_go (b : Boid) (crowd_dist local_dist : ℝ) (boid_to_update : ℕ) :
    ℕ → ScanAcc → List Boid → ScanAcc
  | _, acc, [] => acc
  | boid_idx, acc, other_boid :: rest =>
    if boid_idx = boid_to_update then
      update_scan_go b crowd_dist local_dist boid_to_update (boid_idx + 1) acc rest
    else if b.is_crowded_by_boid other_boid crowd_dist then
      update_scan_go b crowd_dist local_dist boid_to_update (boid_idx + 1)
        { acc with
          num_crowding_boids := acc.num_crowding_boids + 1
          total_x_dist_of_crowding_boids := acc.total_x_dist_of_crowding_boids + other_boid.x_pos
          total_y_dist_of_crowding_boids := acc.total_y_dist_of_crowding_boids + other_boid.y_pos }
        rest
    else if b.is_within_sight_of_local_boid other_boid local_dist then
      update_scan_go b crowd_dist local_dist boid_to_update (boid_idx + 1)
        { acc with
          num_local_boids := acc.num_local_boids + 1
          total_of_local_boids := acc.total_of_local_boids + other_boid }
        rest
    else
      update_scan_go b crowd_dist local_dist boid_to_update (boid_idx + 1) acc rest

/-- The classification scan of `Flock::update_boid`, started with zeroed
accumulators and `total_of_local_boids = Boid::new(0,0,0,0)`. -/
def update_scan (b : Boid) (crowd_dist local_dist : ℝ) (boid_to_update : ℕ)
    (boids : List Boid) : ScanAcc :=
  update_scan_go b crowd_dist local_dist boid_to_update 0 ⟨0, 0, 0, 0, Boid.new 0 0 0 0⟩ boids

/-- `Flock::update_boid` from src/flock.rs (lines 220-299): classify the
other boids, apply separation when the crowding count is positive, apply
alignment then cohesion when the local count is positive, advance the
position when both counts are zero, then run `limit_speed` and finally
`maybe_reflect_off_boundaries` on the updated boid. -/
def Flock.update_boid (f : Flock) (boid_to_update : ℕ) : Flock :=
  let b := f.boids.getD boid_to_update default
  let acc := update_scan b f.max_dist_before_boid_is_no_longer_crowded f.max_dist_of_local_boid
    boid_to_update f.boids
  let b1 := if acc.num_crowding_boids > 0 then
      b.uncrowd_boid acc.num_crowding_boids acc.total_x_dist_of_crowding_boids
        acc.total_y_dist_of_crowding_boids f.repulsion_factor f.time_per_frame
    else b
  let b2 := if acc.num_local_boids > 0 then
      (b1.align_boid acc.num_local_boids acc.total_of_local_boids.x_vel
        acc.total_of_local_boids.y_vel f.adhesion_factor f.time_per_frame).cohere_boid
        acc.num_local_boids acc.total_of_local_boids.x_pos acc.total_of_local_boids.y_pos
        f.cohesion_factor f.time_per_frame
    else b1
  let b3 := if acc.num_local_boids = 0 ∧ acc.num_crowding_boids = 0 then
      { b2 with
        x_pos := b2.x_pos + b2.x_vel * f.time_per_frame
        y_pos := b2.y_pos + b2.y_vel * f.time_per_frame }
    else b2
  let b4 := Boid.limit_speed_boid f.boid_max_speed f.time_per_frame b3
  let b5 := maybe_reflect_off_boundaries b4 f.frame_width f.frame_height f.time_per_frame
  { f with boids := f.boids.set boid_to_update b5 }

/-- `Flock::randomly_generate_boids` from src/flock.rs (lines 167-187), with
`thread_rng` modelled by a draw oracle `gen`: the n-th call
`gen n lo hi` stands for `rng.gen_range(lo..hi)`.  Note the source computes
`mid_frame_y` and `max_starting_dist_from_mid_y` from `frame_width`. -/
def Flock.randomly_generate_boids (f : Flock) (gen : ℕ → ℝ → ℝ → ℝ) : Flock :=
  let frame_width := f.frame_width
  let mid_frame_x := frame_width / 2
  let mid_frame_y := frame_width / 2
  let max_starting_dist_from_mid_x := frame_width / 10
  let max_starting_dist_from_mid_y := frame_width / 10
  let boids := (List.range f.flock_size).map fun k =>
    Boid.new
      (mid_frame_x + gen (4 * k) (-max_starting_dist_from_mid_x) max_starting_dist_from_mid_x)
      (mid_frame_y + gen (4 * k + 1) (-max_starting_dist_from_mid_y) max_starting_dist_from_mid_y)
      (gen (4 * k + 2) (-f.boid_max_speed) f.boid_max_speed)
      (gen (4 * k + 3) (-f.boid_max_speed) f.boid_max_speed)
  { f with boids := boids }

/-- The crowding class of the scan, written against the spec's words for
comparison with the source loop: the other boids (running index different
from the one being updated) that pass the crowded-by test. -/
def crowding_class (b : Boid) (crowd_dist : ℝ) (boid_to_update : ℕ) :
    ℕ → List Boid → List Boid
  | _, [] => []
  | boid_idx, other_boid :: rest =>
    if boid_idx ≠ boid_to_update ∧ b.is_crowded_by_boid other_boid crowd_dist then
      other_boid :: crowding_class b crowd_dist boid_to_update (boid_idx + 1) rest
    else crowding_class b crowd_dist boid_to_update (boid_idx + 1) rest

/-- The local-flock class of the scan, written against the spec's words for
comparison with the source loop: the other boids that are not crowding (the
crowded-by test takes priority) yet pass the local-flock sight test. -/
def local_class (b : Boid) (crowd_dist local_dist : ℝ) (boid_to_update : ℕ) :
    ℕ → List Boid → List Boid
  | _, [] => []
  | boid_idx, other_boid :: rest =>
    if boid_idx ≠ boid_to_update ∧ ¬ b.is_crowded_by_boid other_boid crowd_dist ∧
        b.is_within_sight_of_local_boid other_boid local_dist then
      other_boid :: local_class b crowd_dist local_dist boid_to_update (boid_idx + 1) rest
    else local_class b crowd_dist local_dist boid_to_update (boid_idx + 1) rest

lemma getD_set_self {α : Type} (l : List α) (i : ℕ) (x d : α) (h : i < l.length) :
    (l.set i x).getD i d = x := by
  induction l generalizing i with
  | nil => simp at h
  | cons a t ih =>
    cases i with
    | zero => simp
    | succ n =>
      simp only [List.set_cons_succ, List.getD_cons_succ]
      exact ih n (by simpa using h)

lemma speed_mk (px py vx vy : ℝ) :
    Boid.speed ⟨px, py, vx, vy⟩ = Real.sqrt (vx ^ 2 + vy ^ 2) := rfl

lemma speed_nonneg (b : Boid) : 0 ≤ b.speed := Real.sqrt_nonneg _

lemma limit_speed_vel_of_not_gt {max_speed : ℝ} {b : Boid} (h : ¬ b.speed > max_speed) :
    Boid.limit_speed_vel max_speed b = b := by
  rw [Boid.limit_speed_vel, if_neg h]

lemma speed_limit_speed_vel_le (max_speed : ℝ) (b : Boid) (hm : 0 ≤ max_speed) :
    (Boid.limit_speed_vel max_speed b).speed ≤ max_speed := by
  rw [Boid.limit_speed_vel]
  split_ifs with h
  · have hs : 0 < b.speed := lt_of_le_of_lt hm h
    have hs2 : b.speed ^ 2 = b.x_vel ^ 2 + b.y_vel ^ 2 := Real.sq_sqrt (by positivity)
    have hsne : b.speed ≠ 0 := ne_of_gt hs
    have hkey : (b.x_vel / b.speed * max_speed) ^ 2 + (b.y_vel / b.speed * max_speed) ^ 2 =
        max_speed ^ 2 := by
      have expand : (b.x_vel / b.speed * max_speed) ^ 2 + (b.y_vel / b.speed * max_speed) ^ 2 =
          (b.x_vel ^ 2 + b.y_vel ^ 2) * max_speed ^ 2 / b.speed ^ 2 := by
        field_simp
        ring
      rw [expand, ← hs2, mul_comm, mul_div_assoc, div_self (pow_ne_zero 2 hsne), mul_one]
    show Real.sqrt _ ≤ max_speed
    rw [hkey, Real.sqrt_sq hm]
  · exact le_of_not_lt h

lemma speed_limit_speed_boid (max_speed time_per_frame : ℝ) (b : Boid) :
    (Boid.limit_speed_boid max_speed time_per_frame b).speed =
      (Boid.limit_speed_vel max_speed b).speed := rfl

lemma vel_limit_speed_boid (max_speed time_per_frame : ℝ) (b : Boid) :
    (Boid.limit_speed_boid max_speed time_per_frame b).x_vel =
        (Boid.limit_speed_vel max_speed b).x_vel ∧
      (Boid.limit_speed_boid max_speed time_per_frame b).y_vel =
        (Boid.limit_speed_vel max_speed b).y_vel :=
  ⟨rfl, rfl⟩

lemma speed_only_vel (b c : Boid) (hx : b.x_vel = c.x_vel) (hy : b.y_vel = c.y_vel) :
    b.speed = c.speed := by
  rw [Boid.speed, Boid.speed, hx, hy]

lemma limit_speed_vel_only_vel (max_speed : ℝ) (b c : Boid)
    (hx : b.x_vel = c.x_vel) (hy : b.y_vel = c.y_vel) :
    (Boid.limit_speed_vel max_speed b).x_vel = (Boid.limit_speed_vel max_speed c).x_vel ∧
      (Boid.limit_speed_vel max_speed b).y_vel = (Boid.limit_speed_vel max_speed c).y_vel := by
  have hs : b.speed = c.speed := speed_only_vel b c hx hy
  rw [Boid.limit_speed_vel, Boid.limit_speed_vel, hs]
  split_ifs with h
  · exact ⟨by simp [hx, hs], by simp [hy, hs]⟩
  · exact ⟨hx, hy⟩

lemma speed_maybe_reflect (b : Boid) (frame_width frame_height time_per_frame : ℝ) :
    (maybe_reflect_off_boundaries b frame_width frame_height time_per_frame).speed = b.speed := by
  simp only [maybe_reflect_off_boundaries, Boid.speed]
  split_ifs <;> simp [neg_sq]

lemma sqrt_le_8_of_le_64 {a : ℝ} (h : a ≤ 64) : Real.sqrt a ≤ 8 := by
  have h64 : Real.sqrt 64 = 8 := by
    rw [show (64 : ℝ) = 8 ^ 2 by norm_num, Real.sqrt_sq (by norm_num : (0:ℝ) ≤ 8)]
  calc Real.sqrt a ≤ Real.sqrt 64 := Real.sqrt_le_sqrt h
    _ = 8 := h64

/-- C1: construction collects every applicable configuration violation into
one failure value without short-circuiting.  Constructing with
repulsion = 2.0, adhesion = -4.9, cohesion = 1.0 yields exactly the two
errors (repulsion above one, adhesion below zero); whenever the crowding
radius is ≥ the local radius the environment error is appended after
whatever factor errors apply; and the four-bad-inputs construction from the
source's own test yields four collected errors. -/
theorem validation_collects_all_errors :
    (validate_factors 2 (-4.9) 1 =
      [CreationError.FactorShouldBeLessThanOne "repulsion",
       CreationError.FactorShouldBeMoreThanZero "adhesion"])
    ∧ (Flock.new 0 1 2 2 (-4.9) 1 = Except.error
        ⟨[CreationError.FactorShouldBeLessThanOne "repulsion",
          CreationError.FactorShouldBeMoreThanZero "adhesion"]⟩)
    ∧ (∀ (size : ℕ) (crowd lcl r a c : ℝ), crowd ≥ lcl →
        Flock.new size crowd lcl r a c = Except.error
          ⟨validate_factors r a c ++
            [CreationError.LocalEnvironmentIsSmallerThanCrowdingEnvironment]⟩)
    ∧ (∃ errs, Flock.new 0 2 (-4.9) 3 20 2 = Except.error ⟨errs⟩ ∧ errs.length = 4) := by
  refine ⟨?_, ?_, ?_, ?_⟩
  · simp only [validate_factors, check_float_between_zero_and_one]
    norm_num [List.filterMap_cons]
  · have hval : (Flock.input 0 1 2 2 (-4.9) 1).validate = Except.error
        ⟨[CreationError.FactorShouldBeLessThanOne "repulsion",
          CreationError.FactorShouldBeMoreThanZero "adhesion"]⟩ := by
      simp only [Flock.validate, Flock.input, validate_factors, check_float_between_zero_and_one,
        validate_distances]
      norm_num [List.filterMap_cons]
    simp only [Flock.new, hval]
  · intro size crowd lcl r a c h
    have hval : (Flock.input size crowd lcl r a c).validate = Except.error
        ⟨validate_factors r a c ++
          [CreationError.LocalEnvironmentIsSmallerThanCrowdingEnvironment]⟩ := by
      simp only [Flock.validate, Flock.input, validate_distances, if_pos h]
      simp
    simp only [Flock.new, hval]
  · refine ⟨[CreationError.FactorShouldBeLessThanOne "repulsion",
      CreationError.FactorShouldBeLessThanOne "adhesion",
      CreationError.FactorShouldBeLessThanOne "cohesion",
      CreationError.LocalEnvironmentIsSmallerThanCrowdingEnvironment], ?_, rfl⟩
    have hval : (Flock.input 0 2 (-4.9) 3 20 2).validate = Except.error
        ⟨[CreationError.FactorShouldBeLessThanOne "repulsion",
          CreationError.FactorShouldBeLessThanOne "adhesion",
          CreationError.FactorShouldBeLessThanOne "cohesion",
          CreationError.LocalEnvironmentIsSmallerThanCrowdingEnvironment]⟩ := by
      simp only [Flock.validate, Flock.input, validate_factors, check_float_between_zero_and_one,
        validate_distances]
      norm_num [List.filterMap_cons]
    simp only [Flock.new, hval]

/-- Witness for C1: the radius hypothesis of the environment-error part,
discharged at crowding radius 5 and local radius 3. -/
theorem validation_collects_all_errors_witness :
    (5:ℝ) ≥ 3 ∧ Flock.new 0 5 3 0 0 0 = Except.error
      ⟨validate_factors 0 0 0 ++
        [CreationError.LocalEnvironmentIsSmallerThanCrowdingEnvironment]⟩ :=
  ⟨by norm_num, validation_collects_all_errors.2.2.1 0 5 3 0 0 0 (by norm_num)⟩

/-- C7: construction is atomic with respect to validation.  If the input
record fails validation, `Flock.new` returns that failure (and no flock, so
no agents are allocated); if it passes, `Flock.new` returns the initialised
flock whose boid list is exactly `flock_size` zero-initialised agents. -/
theorem new_validates_before_allocating :
    ∀ (size : ℕ) (crowd lcl r a c : ℝ),
      (∀ e, (Flock.input size crowd lcl r a c).validate = Except.error e →
        Flock.new size crowd lcl r a c = Except.error e)
      ∧ (∀ u, (Flock.input size crowd lcl r a c).validate = Except.ok u →
          Flock.new size crowd lcl r a c = Except.ok ((Flock.input size crowd lcl r a c).init)
          ∧ ((Flock.input size crowd lcl r a c).init).boids =
              List.replicate size (Boid.new 0 0 0 0)
          ∧ ((Flock.input size crowd lcl r a c).init).boids.length = size) := by
  intro size crowd lcl r a c
  constructor
  · intro e he
    simp only [Flock.new, he]
  · intro u he
    refine ⟨by simp only [Flock.new, he], ?_, ?_⟩
    · simp [Flock.init, Flock.generate_boids, Flock.input]
    · simp [Flock.init, Flock.generate_boids, Flock.input]

/-- Witness for C7: both branches exercised, at a passing configuration
(crowding radius 1 < local radius 2) and at a failing one (2 ≥ 1). -/
theorem new_validates_before_allocating_witness :
    (Flock.input 2 1 2 0 0 0).validate = Except.ok ()
    ∧ (Flock.input 0 2 1 0 0 0).validate = Except.error
        ⟨[CreationError.LocalEnvironmentIsSmallerThanCrowdingEnvironment]⟩
    ∧ Flock.new 2 1 2 0 0 0 = Except.ok ((Flock.input 2 1 2 0 0 0).init)
    ∧ ((Flock.input 2 1 2 0 0 0).init).boids = List.replicate 2 (Boid.new 0 0 0 0)
    ∧ Flock.new 0 2 1 0 0 0 = Except.error
        ⟨[CreationError.LocalEnvironmentIsSmallerThanCrowdingEnvironment]⟩ := by
  have hok : (Flock.input 2 1 2 0 0 0).validate = Except.ok () := by
    simp only [Flock.validate, Flock.input, validate_factors, check_float_between_zero_and_one,
      validate_distances]
    norm_num
  have herr : (Flock.input 0 2 1 0 0 0).validate = Except.error
      ⟨[CreationError.LocalEnvironmentIsSmallerThanCrowdingEnvironment]⟩ := by
    simp only [Flock.validate, Flock.input, validate_factors, check_float_between_zero_and_one,
      validate_distances]
    norm_num [List.filterMap_cons]
  have h1 := (new_validates_before_allocating 2 1 2 0 0 0).2 () hok
  have h2 := (new_validates_before_allocating 0 2 1 0 0 0).1 _ herr
  exact ⟨hok, herr, h1.1, h1.2.1, h2⟩

lemma Boid.add_def (a c : Boid) :
    a + c = ⟨a.x_pos + c.x_pos, a.y_pos + c.y_pos, a.x_vel + c.x_vel, a.y_vel + c.y_vel⟩ := rfl

lemma update_scan_go_spec (b : Boid) (cd ld : ℝ) (i : ℕ) :
    ∀ (l : List Boid) (idx : ℕ) (acc : ScanAcc),
      update_scan_go b cd ld i idx acc l =
        { num_crowding_boids := acc.num_crowding_boids + ((crowding_class b cd i idx l).length : ℤ)
          total_x_dist_of_crowding_boids := acc.total_x_dist_of_crowding_boids +
            ((crowding_class b cd i idx l).map Boid.x_pos).sum
          total_y_dist_of_crowding_boids := acc.total_y_dist_of_crowding_boids +
            ((crowding_class b cd i idx l).map Boid.y_pos).sum
          num_local_boids := acc.num_local_boids + ((local_class b cd ld i idx l).length : ℤ)
          total_of_local_boids := Boid.new
            (acc.total_of_local_boids.x_pos + ((local_class b cd ld i idx l).map Boid.x_pos).sum)
            (acc.total_of_local_boids.y_pos + ((local_class b cd ld i idx l).map Boid.y_pos).sum)
            (acc.total_of_local_boids.x_vel + ((local_class b cd ld i idx l).map Boid.x_vel).sum)
            (acc.total_of_local_boids.y_vel + ((local_class b cd ld i idx l).map Boid.y_vel).sum) } := by
  intro l
  induction l with
  | nil =>
    intro idx acc
    obtain ⟨n, tx, ty, m, ⟨tp, tq, tv, tw⟩⟩ := acc
    simp [update_scan_go, crowding_class, local_class, Boid.new]
  | cons other rest ih =>
    intro idx acc
    by_cases h1 : idx = i
    · rw [show update_scan_go b cd ld i idx acc (other :: rest) =
          update_scan_go b cd ld i (idx + 1) acc rest by rw [update_scan_go, if_pos h1]]
      rw [show crowding_class b cd i idx (other :: rest) =
          crowding_class b cd i (idx + 1) rest by rw [crowding_class, if_neg (by simp [h1])]]
      rw [show local_class b cd ld i idx (other :: rest) =
          local_class b cd ld i (idx + 1) rest by rw [local_class, if_neg (by simp [h1])]]
      exact ih (idx + 1) acc
    · by_cases h2 : b.is_crowded_by_boid other cd
      · rw [show update_scan_go b cd ld i idx acc (other :: rest) =
            update_scan_go b cd ld i (idx + 1)
              { acc with
                num_crowding_boids := acc.num_crowding_boids + 1
                total_x_dist_of_crowding_boids :=
                  acc.total_x_dist_of_crowding_boids + other.x_pos
                total_y_dist_of_crowding_boids :=
                  acc.total_y_dist_of_crowding_boids + other.y_pos } rest by
          rw [update_scan_go, if_neg h1, if_pos h2]]
        rw [show crowding_class b cd i idx (other :: rest) =
            other :: crowding_class b cd i (idx + 1) rest by
          rw [crowding_class, if_pos ⟨h1, h2⟩]]
        rw [show local_class b cd ld i idx (other :: rest) =
            local_class b cd ld i (idx + 1) rest by
          rw [local_class, if_neg (by simp [h2])]]
        rw [ih]
        simp only [List.length_cons, List.map_cons, List.sum_cons, ScanAcc.mk.injEq, Boid.new]
        and_intros <;> first | trivial | (push_cast; ring)
      · by_cases h3 : b.is_within_sight_of_local_boid other ld
        · rw [show update_scan_go b cd ld i idx acc (other :: rest) =
              update_scan_go b cd ld i (idx + 1)
                { acc with
                  num_local_boids := acc.num_local_boids + 1
                  total_of_local_boids := acc.total_of_local_boids + other } rest by
            rw [update_scan_go, if_neg h1, if_pos h3, if_neg h2]]
          rw [show crowding_class b cd i idx (other :: rest) =
              crowding_class b cd i (idx + 1) rest by
            rw [crowding_class, if_neg (by simp [h2])]]
          rw [show local_class b cd ld i idx (other :: rest) =
              other :: local_class b cd ld i (idx + 1) rest by
            rw [local_class, if_pos ⟨h1, h2, h3⟩]]
          rw [ih]
          simp only [List.length_cons, List.map_cons, List.sum_cons, ScanAcc.mk.injEq, Boid.new,
            Boid.add_def, Boid.mk.injEq]
          and_intros <;> first | trivial | (push_cast; ring)
        · rw [show update_scan_go b cd ld i idx acc (other :: rest) =
              update_scan_go b cd ld i (idx + 1) acc rest by
            rw [update_scan_go, if_neg h1, if_neg h2, if_neg h3]]
          rw [show crowding_class b cd i idx (other :: rest) =
              crowding_class b cd i (idx + 1) rest by
            rw [crowding_class, if_neg (by simp [h2])]]
          rw [show local_class b cd ld i idx (other :: rest) =
              local_class b cd ld i (idx + 1) rest by
            rw [local_class, if_neg (by simp [h3])]]
          exact ih (idx + 1) acc

/-- C6: the classification scan of `Flock::update_boid` tests each other
boid crowded-by first with the strict axis-aligned test, and accumulates a
crowded neighbour only into the crowding aggregates: the crowding aggregates
range over exactly the other boids passing the crowded-by test, and the
local aggregates range over exactly the other boids that are *not* crowding
yet pass the local-sight test, so the two classes are mutually exclusive
with crowding taking priority. -/
theorem update_scan_classifies :
    ∀ (b : Boid) (cd ld : ℝ) (i : ℕ) (boids : List Boid),
      (update_scan b cd ld i boids).num_crowding_boids =
          ((crowding_class b cd i 0 boids).length : ℤ)
      ∧ (update_scan b cd ld i boids).total_x_dist_of_crowding_boids =
          ((crowding_class b cd i 0 boids).map Boid.x_pos).sum
      ∧ (update_scan b cd ld i boids).total_y_dist_of_crowding_boids =
          ((crowding_class b cd i 0 boids).map Boid.y_pos).sum
      ∧ (update_scan b cd ld i boids).num_local_boids =
          ((local_class b cd ld i 0 boids).length : ℤ)
      ∧ (update_scan b cd ld i boids).total_of_local_boids = Boid.new
          (((local_class b cd ld i 0 boids).map Boid.x_pos).sum)
          (((local_class b cd ld i 0 boids).map Boid.y_pos).sum)
          (((local_class b cd ld i 0 boids).map Boid.x_vel).sum)
          (((local_class b cd ld i 0 boids).map Boid.y_vel).sum)
      ∧ (∀ (other : Boid) (d : ℝ), b.is_crowded_by_boid other d ↔
          |b.x_pos - other.x_pos| < d ∧ |b.y_pos - other.y_pos| < d) := by
  intro b cd ld i boids
  rw [update_scan, update_scan_go_spec]
  refine ⟨by simp, by simp, by simp, by simp, by simp [Boid.new], fun other d => Iff.rfl⟩

/-- C3: the alignment update leaves `vel + (mean_neighbor_vel - vel) *
adhesion_factor` in the velocity components; on an agent with velocity
(1,5) and two local neighbours of summed velocity (20,0), adhesion 1.0
gives velocity (10,0), adhesion 0.0 leaves (1,5), and adhesion 0.5 gives
(5.5, 2.5). -/
theorem align_boid_formula :
    (∀ (b : Boid) (n : ℤ) (tx ty af t : ℝ), 0 < n →
      (b.align_boid n tx ty af t).x_vel = b.x_vel + (tx / (n : ℝ) - b.x_vel) * af
      ∧ (b.align_boid n tx ty af t).y_vel = b.y_vel + (ty / (n : ℝ) - b.y_vel) * af)
    ∧ ((Boid.new 1 1 1 5).align_boid 2 20 0 1 1).x_vel = 10
    ∧ ((Boid.new 1 1 1 5).align_boid 2 20 0 1 1).y_vel = 0
    ∧ ((Boid.new 1 1 1 5).align_boid 2 20 0 0 1).x_vel = 1
    ∧ ((Boid.new 1 1 1 5).align_boid 2 20 0 0 1).y_vel = 5
    ∧ ((Boid.new 1 1 1 5).align_boid 2 20 0 0.5 1).x_vel = 5.5
    ∧ ((Boid.new 1 1 1 5).align_boid 2 20 0 0.5 1).y_vel = 2.5 := by
  refine ⟨fun b n tx ty af t _ => ⟨rfl, rfl⟩, ?_, ?_, ?_, ?_, ?_, ?_⟩ <;>
    · simp only [Boid.align_boid, Boid.new]
      norm_num

/-- Witness for C3: the positive-count hypothesis of the formula part,
discharged at two local neighbours. -/
theorem align_boid_formula_witness :
    (0 : ℤ) < 2 ∧
      ((Boid.new 1 1 1 5).align_boid 2 20 0 1 1).x_vel =
        (Boid.new 1 1 1 5).x_vel + (20 / ((2 : ℤ) : ℝ) - (Boid.new 1 1 1 5).x_vel) * 1 :=
  ⟨by norm_num, (align_boid_formula.1 (Boid.new 1 1 1 5) 2 20 0 1 1 (by norm_num)).1⟩

/-- C10: the boundary-reflection method from src/boids.rs changes at most the
signs of the velocity components: both position components and both velocity
components' absolute values are unchanged, and so is the Euclidean speed. -/
theorem reflect_changes_only_velocity_signs :
    ∀ (b : Boid) (frame_width frame_height : ℤ),
      (maybe_reflect_off_boundaries_method b frame_width frame_height).x_pos = b.x_pos
      ∧ (maybe_reflect_off_boundaries_method b frame_width frame_height).y_pos = b.y_pos
      ∧ |(maybe_reflect_off_boundaries_method b frame_width frame_height).x_vel| = |b.x_vel|
      ∧ |(maybe_reflect_off_boundaries_method b frame_width frame_height).y_vel| = |b.y_vel|
      ∧ (maybe_reflect_off_boundaries_method b frame_width frame_height).speed = b.speed := by
  intro b frame_width frame_height
  simp only [maybe_reflect_off_boundaries_method, Boid.speed]
  split_ifs <;> simp [abs_neg, neg_sq]


/-- A concrete flock in the style of the source's own tests: build a valid
flock and overwrite its boid list (the configuration fields are those of
`Flock::new` with crowding radius 1 and local radius 2, all factors 0). -/
def test_flock (bs : List Boid) : Flock :=
  { flock_size := bs.length
    boids := bs
    max_dist_before_boid_is_no_longer_crowded := 1
    max_dist_of_local_boid := 2
    repulsion_factor := 0
    adhesion_factor := 0
    cohesion_factor := 0
    time_per_frame := 1
    boid_max_speed := 8
    frame_width := 800
    frame_height := 500 }

lemma update_boid_speed_le (f : Flock) (i : ℕ) (hm : 0 ≤ f.boid_max_speed)
    (hi : i < f.boids.length) :
    ((f.update_boid i).boids.getD i default).speed ≤ f.boid_max_speed := by
  simp only [Flock.update_boid]
  rw [getD_set_self _ _ _ _ hi, speed_maybe_reflect, speed_limit_speed_boid]
  exact speed_limit_speed_vel_le _ _ hm

/-- C2: on a validly constructed flock (whatever boid states it has reached)
and any in-range agent index, the per-tick update leaves the agent's speed at
most the configured maximum: the speed cap inside `limit_speed` bounds it and
the final boundary reflection only flips velocity signs, preserving it. -/
theorem update_boid_speed_bounded :
    ∀ (size : ℕ) (cd ld r a c : ℝ) (f : Flock),
      Flock.new size cd ld r a c = Except.ok f →
      ∀ (bs : List Boid) (i : ℕ), i < bs.length →
        (Boid.speed ((({ f with boids := bs }).update_boid i).boids.getD i default)) ≤
          ({ f with boids := bs } : Flock).boid_max_speed := by
  intro size cd ld r a c f h bs i hi
  have hrec : f = (Flock.input size cd ld r a c).init := by
    simp only [Flock.new] at h
    rcases hv : (Flock.input size cd ld r a c).validate with e | u
    · rw [hv] at h
      exact absurd h (by simp)
    · rw [hv] at h
      simpa using h.symm
  have hmax : ({ f with boids := bs } : Flock).boid_max_speed = 8 := by
    rw [hrec]
    rfl
  exact update_boid_speed_le { f with boids := bs } i (by rw [hmax]; norm_num) hi

/-- Witness for C2: a constructed flock with one boid of velocity (1,0),
updated at index 0. -/
theorem update_boid_speed_bounded_witness :
    Flock.new 1 1 2 0 0 0 = Except.ok ((Flock.input 1 1 2 0 0 0).init)
    ∧ (0 : ℕ) < [Boid.new 0 0 1 0].length
    ∧ (Boid.speed ((({ (Flock.input 1 1 2 0 0 0).init with
          boids := [Boid.new 0 0 1 0] }).update_boid 0).boids.getD 0 default)) ≤
        ({ (Flock.input 1 1 2 0 0 0).init with
          boids := [Boid.new 0 0 1 0] } : Flock).boid_max_speed := by
  have hok : Flock.new 1 1 2 0 0 0 = Except.ok ((Flock.input 1 1 2 0 0 0).init) := by
    have hval : (Flock.input 1 1 2 0 0 0).validate = Except.ok () := by
      simp only [Flock.validate, Flock.input, validate_factors, check_float_between_zero_and_one,
        validate_distances]
      norm_num
    simp only [Flock.new, hval]
  exact ⟨hok, by norm_num,
    update_boid_speed_bounded 1 1 2 0 0 0 _ hok [Boid.new 0 0 1 0] 0 (by norm_num)⟩

/-- C5 (failing-input evaluation): in one tick with no neighbours, the
position is advanced twice — once in the unaffected branch and once inside
`limit_speed` — so a boid at (1,1) with velocity (1,1) and time-per-frame 1
ends at (3,3), not at the single integration pos + vel * t = (2,2). -/
theorem update_boid_double_integration :
    (test_flock [Boid.new 1 1 1 1]).update_boid 0 =
      { test_flock [Boid.new 1 1 1 1] with boids := [Boid.new 3 3 1 1] }
    ∧ Boid.new 3 3 1 1 ≠ Boid.new (1 + 1 * 1) (1 + 1 * 1) 1 1 := by
  constructor
  · have hscan : update_scan (Boid.new 1 1 1 1) 1 2 0 [Boid.new 1 1 1 1] =
        ⟨0, 0, 0, 0, Boid.new 0 0 0 0⟩ := by
      simp [update_scan, update_scan_go]
    have hlim : Boid.limit_speed_boid 8 1 (Boid.new 2 2 1 1) = Boid.new 3 3 1 1 := by
      have hs : (Boid.new 2 2 1 1).speed = Real.sqrt 2 := by
        simp [Boid.new, Boid.speed]
        norm_num
      have hnot : ¬ (Boid.new 2 2 1 1).speed > 8 := by
        rw [hs]
        exact not_lt.mpr (sqrt_le_8_of_le_64 (by norm_num))
      simp only [Boid.limit_speed_boid]
      rw [limit_speed_vel_of_not_gt hnot]
      simp only [Boid.new]
      norm_num
    have hrefl : maybe_reflect_off_boundaries (Boid.new 3 3 1 1) 800 500 1 = Boid.new 3 3 1 1 := by
      simp only [maybe_reflect_off_boundaries, Boid.new]
      norm_num
    have hint : (⟨(Boid.new 1 1 1 1).x_pos + (Boid.new 1 1 1 1).x_vel,
        (Boid.new 1 1 1 1).y_pos + (Boid.new 1 1 1 1).y_vel,
        (Boid.new 1 1 1 1).x_vel, (Boid.new 1 1 1 1).y_vel⟩ : Boid) = Boid.new 2 2 1 1 := by
      simp only [Boid.new]
      norm_num
    simp only [Flock.update_boid, test_flock, List.getD_cons_zero, List.set_cons_zero, hscan]
    norm_num
    rw [hint, hlim, hrefl]
  · intro h
    have hx := congrArg Boid.x_pos h
    simp only [Boid.new] at hx
    norm_num at hx

/-- C4 (failing-input evaluation): a boid at the far x edge (800, 250) with
outward velocity (1, 0) does get its x velocity sign flipped by the final
reflection, but the tick's two position integrations have already moved it to
x = 802, outside (0, 800). -/
theorem update_boid_escapes_frame :
    (test_flock [Boid.new 800 250 1 0]).update_boid 0 =
      { test_flock [Boid.new 800 250 1 0] with boids := [Boid.new 802 250 (-1) 0] }
    ∧ ¬ ((802 : ℝ) < (test_flock [Boid.new 800 250 1 0]).frame_width) := by
  constructor
  · have hscan : update_scan (Boid.new 800 250 1 0) 1 2 0 [Boid.new 800 250 1 0] =
        ⟨0, 0, 0, 0, Boid.new 0 0 0 0⟩ := by
      simp [update_scan, update_scan_go]
    have hlim : Boid.limit_speed_boid 8 1 (Boid.new 801 250 1 0) = Boid.new 802 250 1 0 := by
      have hs : (Boid.new 801 250 1 0).speed = 1 := by
        simp [Boid.new, Boid.speed]
      have hnot : ¬ (Boid.new 801 250 1 0).speed > 8 := by
        rw [hs]
        norm_num
      simp only [Boid.limit_speed_boid]
      rw [limit_speed_vel_of_not_gt hnot]
      simp only [Boid.new]
      norm_num
    have hrefl : maybe_reflect_off_boundaries (Boid.new 802 250 1 0) 800 500 1 =
        Boid.new 802 250 (-1) 0 := by
      simp only [maybe_reflect_off_boundaries, Boid.new]
      norm_num
    have hint : (⟨(Boid.new 800 250 1 0).x_pos + (Boid.new 800 250 1 0).x_vel,
        (Boid.new 800 250 1 0).y_pos + (Boid.new 800 250 1 0).y_vel,
        (Boid.new 800 250 1 0).x_vel, (Boid.new 800 250 1 0).y_vel⟩ : Boid) =
        Boid.new 801 250 1 0 := by
      simp only [Boid.new]
      norm_num
    simp only [Flock.update_boid, test_flock, List.getD_cons_zero, List.set_cons_zero, hscan]
    norm_num
    rw [hint, hlim, hrefl]
  · simp only [test_flock]
    norm_num

/-- C8 counterexample: `limit_speed` is not idempotent as a whole, because it
advances the position on every call: on a boid at (0,0) with velocity (1,0)
one application yields position (1,0) and a second yields (2,0). -/
theorem limit_speed_not_idempotent :
    ((test_flock [Boid.new 0 0 1 0]).limit_speed 0).limit_speed 0 ≠
      (test_flock [Boid.new 0 0 1 0]).limit_speed 0 := by
  have h1 : (test_flock [Boid.new 0 0 1 0]).limit_speed 0 =
      { test_flock [Boid.new 0 0 1 0] with boids := [Boid.new 1 0 1 0] } := by
    have hs : (Boid.new 0 0 1 0).speed = 1 := by simp [Boid.new, Boid.speed]
    have hnot : ¬ (Boid.new 0 0 1 0).speed > 8 := by rw [hs]; norm_num
    simp only [Flock.limit_speed, test_flock, List.getD_cons_zero, List.set_cons_zero]
    simp only [Boid.limit_speed_boid]
    rw [limit_speed_vel_of_not_gt hnot]
    simp only [Boid.new]
    norm_num
  have h2 : ({ test_flock [Boid.new 0 0 1 0] with
      boids := [Boid.new 1 0 1 0] } : Flock).limit_speed 0 =
      { test_flock [Boid.new 0 0 1 0] with boids := [Boid.new 2 0 1 0] } := by
    have hs : (Boid.new 1 0 1 0).speed = 1 := by simp [Boid.new, Boid.speed]
    have hnot : ¬ (Boid.new 1 0 1 0).speed > 8 := by rw [hs]; norm_num
    simp only [Flock.limit_speed, test_flock, List.getD_cons_zero, List.set_cons_zero]
    simp only [Boid.limit_speed_boid]
    rw [limit_speed_vel_of_not_gt hnot]
    simp only [Boid.new]
    norm_num
  rw [h1, h2]
  intro h
  have hx := congrArg (fun g => (Flock.boids g).getD 0 default) h
  simp only [List.getD_cons_zero] at hx
  have hxx := congrArg Boid.x_pos hx
  simp only [Boid.new] at hxx
  norm_num at hxx

/-- C8 amended: the velocity half of `limit_speed` is idempotent.  For a
nonnegative maximum speed (the constructor always uses 8), the velocity
components after applying `limit_speed` twice to an in-range index equal
those after applying it once; only the position keeps moving. -/
theorem limit_speed_velocity_idempotent :
    ∀ (f : Flock) (i : ℕ), 0 ≤ f.boid_max_speed → i < f.boids.length →
      (((f.limit_speed i).limit_speed i).boids.getD i default).x_vel =
          ((f.limit_speed i).boids.getD i default).x_vel
      ∧ (((f.limit_speed i).limit_speed i).boids.getD i default).y_vel =
          ((f.limit_speed i).boids.getD i default).y_vel := by
  intro f i hm hi
  have hb : (f.limit_speed i).boids.getD i default =
      Boid.limit_speed_boid f.boid_max_speed f.time_per_frame (f.boids.getD i default) := by
    simp only [Flock.limit_speed]
    exact getD_set_self _ _ _ _ hi
  have hlen : i < (f.limit_speed i).boids.length := by
    simp only [Flock.limit_speed, List.length_set]
    exact hi
  have hb2 : ((f.limit_speed i).limit_speed i).boids.getD i default =
      Boid.limit_speed_boid f.boid_max_speed f.time_per_frame
        ((f.limit_speed i).boids.getD i default) := by
    simp only [Flock.limit_speed]
    exact getD_set_self _ _ _ _ hlen
  rw [hb2, hb]
  have hnot : ¬ (Boid.limit_speed_boid f.boid_max_speed f.time_per_frame
      (f.boids.getD i default)).speed > f.boid_max_speed := by
    rw [speed_limit_speed_boid]
    exact not_lt.mpr (speed_limit_speed_vel_le _ _ hm)
  constructor
  · rw [(vel_limit_speed_boid _ _ _).1, limit_speed_vel_of_not_gt hnot]
  · rw [(vel_limit_speed_boid _ _ _).2, limit_speed_vel_of_not_gt hnot]

/-- Witness for C8's amended statement: max speed 8 ≥ 0 and index 0 of a
one-boid flock. -/
theorem limit_speed_velocity_idempotent_witness :
    (0 : ℝ) ≤ (test_flock [Boid.new 0 0 1 0]).boid_max_speed
    ∧ (0 : ℕ) < (test_flock [Boid.new 0 0 1 0]).boids.length
    ∧ ((((test_flock [Boid.new 0 0 1 0]).limit_speed 0).limit_speed 0).boids.getD 0
          default).x_vel =
        (((test_flock [Boid.new 0 0 1 0]).limit_speed 0).boids.getD 0 default).x_vel := by
  refine ⟨by simp only [test_flock]; norm_num, by simp [test_flock], ?_⟩
  exact (limit_speed_velocity_idempotent (test_flock [Boid.new 0 0 1 0]) 0
    (by simp only [test_flock]; norm_num) (by simp [test_flock])).1

/-- The draw oracle returning the midpoint of each requested range: a
legitimate behaviour of `rng.gen_range(lo..hi)`. -/
def mid_range_gen : ℕ → ℝ → ℝ → ℝ := fun _ lo hi => (lo + hi) / 2

lemma mid_range_gen_in_range (n : ℕ) (lo hi : ℝ) (h : lo < hi) :
    lo ≤ mid_range_gen n lo hi ∧ mid_range_gen n lo hi < hi := by
  constructor <;> simp only [mid_range_gen] <;> linarith

/-- C9 (failing-input evaluation): after construction, randomising with the
midpoint oracle places the single boid at (400, 400): the y coordinate is
centred on `frame_width / 2 = 400`, which is not within
±(frame_height / 10) = ±50 of the frame centre `frame_height / 2 = 250` on
the y axis. -/
theorem randomize_centers_y_on_frame_width :
    Flock.new 1 1 2 0 0 0 = Except.ok ((Flock.input 1 1 2 0 0 0).init)
    ∧ (((Flock.input 1 1 2 0 0 0).init).randomly_generate_boids mid_range_gen).boids =
        [Boid.new 400 400 0 0]
    ∧ ¬ (|(400 : ℝ) - ((Flock.input 1 1 2 0 0 0).init).frame_height / 2| ≤
          ((Flock.input 1 1 2 0 0 0).init).frame_height / 10) := by
  refine ⟨?_, ?_, ?_⟩
  · have hval : (Flock.input 1 1 2 0 0 0).validate = Except.ok () := by
      simp only [Flock.validate, Flock.input, validate_factors, check_float_between_zero_and_one,
        validate_distances]
      norm_num
    simp only [Flock.new, hval]
  · simp only [Flock.randomly_generate_boids, Flock.init, Flock.input, Flock.generate_boids,
      mid_range_gen, List.range_succ, List.range_zero, List.nil_append, List.map_cons,
      List.map_nil, Boid.new]
    norm_num
  · simp only [Flock.init, Flock.input]
    norm_num

end

